import Mathlib

/-!
Shallow embedding of wagtail/locks.py.

The module defines three lock variants over a lockable object: BasicLock,
WorkflowLock and ScheduledForPublishLock.  Each variant exposes
for_user (does the lock apply to this user) and get_message (a message
describing the lock, or none).  The surrounding data model (the lockable
object, the user, the workflow task and state, the Django settings) is not
part of locks.py; it is modelled from the spec, which describes a lockable
object with optional fields locked, locked_by, locked_at and optionally an
associated scheduled revision or workflow state.

Python attribute access on None raises an AttributeError; calls that can
raise are embedded with an Except result.  Message templates are embedded
as a structured message type carrying exactly the arguments the source
feeds into format_html, so that distinct templates are distinct values.
-/

namespace WagtailLocks

/-- Modelled from the spec: a datetime value.  The source only ever renders
it through strftime with one fixed format, so the model keeps just that
rendered text. -/
structure PyDateTime where
  strftime : String
  deriving DecidableEq

/-- Modelled from the spec: the actor evaluated against a lock.  pk is the
primary key, absent for an unsaved or anonymous user; display models the
text produced by applying str to the user. -/
structure User where
  pk : Option Nat
  display : String
  deriving DecidableEq

/-- Modelled from the spec: a revision scheduled to go live, with the
approved go-live datetime and the object text used in messages. -/
structure Revision where
  approved_go_live_at : PyDateTime
  object_str : String
  deriving DecidableEq

/-- Modelled from the spec: a workflow, of which only the name is read. -/
structure Workflow where
  name : String
  deriving DecidableEq

/-- Modelled from the spec: the current workflow state of a page.  The
source reads the list returned by all_tasks_with_status only through its
length; the entries are kept as opaque text. -/
structure WorkflowState where
  all_tasks_with_status : List String
  workflow : Workflow
  deriving DecidableEq

/-- Modelled from the spec: a lockable content object with its optional
lock fields, the optional scheduled revision and workflow state, and the
display attributes the messages read.  is_page models the isinstance check
done in the BaseLock constructor, and admin_display_title and verbose_name
model get_admin_display_title and the meta verbose_name. -/
structure LockObj where
  is_page : Bool
  admin_display_title : String
  verbose_name : String
  locked : Bool
  locked_by_id : Option Nat
  locked_by : Option User
  locked_at : Option PyDateTime
  scheduled_revision : Option Revision
  current_workflow_state : Option WorkflowState
  deriving DecidableEq

/-- Modelled from the spec: a workflow task.  page_locked_for_user is the
tasks own rule deciding whether the page is locked for the given user. -/
structure Task where
  name : String
  page_locked_for_user : LockObj → User → Bool

/-- Modelled from the spec: the Django settings object as read by the
source through getattr with default False, so the one setting consulted is
a boolean. -/
structure Settings where
  WAGTAILADMIN_GLOBAL_PAGE_EDIT_LOCK : Bool
  deriving DecidableEq

/-- A raised Python exception, as surfaced by attribute access on None. -/
inductive PyError where
  | attributeError (msg : String)
  deriving DecidableEq

/-- The extra wording of the WorkflowLock message before the common
reviewers sentence: either the simple single-task sentence or the
formatted sentence naming the task and the workflow. -/
inductive WorkflowInfo where
  | awaitingModeration
  | awaitingTask (task_name : String) (workflow_name : String)
  deriving DecidableEq

/-- A message returned by get_message: one constructor per template in the
source, carrying the arguments fed into the template. -/
inductive Msg where
  | pageWasLockedByYou (page_title : String) (datetime : String)
  | pageIsLockedByYou (page_title : String)
  | pageWasLockedByUser (page_title : String) (user : String) (datetime : String)
  | pageIsLocked (page_title : String)
  | workflowMessage (info : WorkflowInfo)
  | scheduledPage (page_title : String) (datetime : String)
  | scheduledNonPage (model_name : String) (title : String) (datetime : String)
  deriving DecidableEq

/-- BasicLock.for_user: true when the global page edit lock setting is on,
otherwise true exactly when the users pk differs from the objects
locked_by_id. -/
def BasicLock.for_user (s : Settings) (obj : LockObj) (user : User) : Bool :=
  if s.WAGTAILADMIN_GLOBAL_PAGE_EDIT_LOCK then
    true
  else
    user.pk != obj.locked_by_id

/-- BasicLock.get_message: when locked_by_id equals the users pk, one of
the two locked-by-you messages depending on whether locked_at is set;
otherwise the third-party message when both locked_by and locked_at are
set, else the generic fallback.  Every branch returns a message. -/
def BasicLock.get_message (obj : LockObj) (user : User) :
    Except PyError (Option Msg) :=
  if obj.locked_by_id == user.pk then
    match obj.locked_at with
    | some locked_at =>
        .ok (some (.pageWasLockedByYou obj.admin_display_title locked_at.strftime))
    | none =>
        .ok (some (.pageIsLockedByYou obj.admin_display_title))
  else
    match obj.locked_by, obj.locked_at with
    | some locked_by, some locked_at =>
        .ok (some (.pageWasLockedByUser obj.admin_display_title
          locked_by.display locked_at.strftime))
    | _, _ =>
        .ok (some (.pageIsLocked obj.admin_display_title))

/-- WorkflowLock.for_user: delegates to the tasks page_locked_for_user. -/
def WorkflowLock.for_user (obj : LockObj) (task : Task) (user : User) : Bool :=
  task.page_locked_for_user obj user

/-- WorkflowLock.get_message: when the lock applies to the user, builds the
workflow message from current_workflow_state (raising when that state is
absent, as the source dereferences it unguarded); otherwise falls through
and returns none. -/
def WorkflowLock.get_message (obj : LockObj) (task : Task) (user : User) :
    Except PyError (Option Msg) :=
  if WorkflowLock.for_user obj task user then
    match obj.current_workflow_state with
    | none =>
        .error (.attributeError
          ("NoneType object has no attribute all_tasks_with_status"))
    | some ws =>
        if ws.all_tasks_with_status.length == 1 then
          .ok (some (.workflowMessage .awaitingModeration))
        else
          .ok (some (.workflowMessage (.awaitingTask task.name ws.workflow.name)))
  else
    .ok none

/-- ScheduledForPublishLock.for_user: unconditionally true. -/
def ScheduledForPublishLock.for_user (_obj : LockObj) (_user : User) : Bool :=
  true

/-- ScheduledForPublishLock.get_message: reads the objects
scheduled_revision and dereferences its approved_go_live_at in both the
page and the non-page branch, so an absent revision raises; with the
revision present it returns the scheduled message for the pages title or
for the models verbose name and the revisions object text. -/
def ScheduledForPublishLock.get_message (obj : LockObj) (_user : User) :
    Except PyError (Option Msg) :=
  match obj.scheduled_revision with
  | none =>
      .error (.attributeError
        ("NoneType object has no attribute approved_go_live_at"))
  | some scheduled_revision =>
      if obj.is_page then
        .ok (some (.scheduledPage obj.admin_display_title
          scheduled_revision.approved_go_live_at.strftime))
      else
        .ok (some (.scheduledNonPage obj.verbose_name
          scheduled_revision.object_str
          scheduled_revision.approved_go_live_at.strftime))

/-- Whether a message uses the locked-by-you wording, i.e. comes from one
of the two templates naming you as the locking user. -/
def Msg.lockedByYouWording : Msg → Bool
  | .pageWasLockedByYou _ _ => true
  | .pageIsLockedByYou _ => true
  | _ => false

/-- The state visible to a lock method call: the settings, the lockable
object, the task and the user.  The source methods only read from it; the
state-passing embeddings below thread it explicitly so that absence of
mutation is a provable fact rather than an assumption. -/
structure CallState where
  settings : Settings
  obj : LockObj
  task : Task
  user : User

/-- State-passing embedding of BasicLock.for_user: the same branches as
the pure embedding, returning the state alongside the result. -/
def BasicLock.for_userSt (st : CallState) : Bool × CallState :=
  if st.settings.WAGTAILADMIN_GLOBAL_PAGE_EDIT_LOCK then
    (true, st)
  else
    ((st.user.pk != st.obj.locked_by_id), st)

/-- State-passing embedding of BasicLock.get_message. -/
def BasicLock.get_messageSt (st : CallState) :
    Except PyError (Option Msg) × CallState :=
  if st.obj.locked_by_id == st.user.pk then
    match st.obj.locked_at with
    | some locked_at =>
        (.ok (some (.pageWasLockedByYou st.obj.admin_display_title
          locked_at.strftime)), st)
    | none =>
        (.ok (some (.pageIsLockedByYou st.obj.admin_display_title)), st)
  else
    match st.obj.locked_by, st.obj.locked_at with
    | some locked_by, some locked_at =>
        (.ok (some (.pageWasLockedByUser st.obj.admin_display_title
          locked_by.display locked_at.strftime)), st)
    | _, _ =>
        (.ok (some (.pageIsLocked st.obj.admin_display_title)), st)

/-- State-passing embedding of WorkflowLock.for_user. -/
def WorkflowLock.for_userSt (st : CallState) : Bool × CallState :=
  (st.task.page_locked_for_user st.obj st.user, st)

/-- State-passing embedding of WorkflowLock.get_message. -/
def WorkflowLock.get_messageSt (st : CallState) :
    Except PyError (Option Msg) × CallState :=
  if st.task.page_locked_for_user st.obj st.user then
    match st.obj.current_workflow_state with
    | none =>
        (.error (.attributeError
          ("NoneType object has no attribute all_tasks_with_status")), st)
    | some ws =>
        if ws.all_tasks_with_status.length == 1 then
          (.ok (some (.workflowMessage .awaitingModeration)), st)
        else
          (.ok (some (.workflowMessage
            (.awaitingTask st.task.name ws.workflow.name))), st)
  else
    (.ok none, st)

/-- State-passing embedding of ScheduledForPublishLock.for_user. -/
def ScheduledForPublishLock.for_userSt (st : CallState) : Bool × CallState :=
  (true, st)

/-- State-passing embedding of ScheduledForPublishLock.get_message. -/
def ScheduledForPublishLock.get_messageSt (st : CallState) :
    Except PyError (Option Msg) × CallState :=
  match st.obj.scheduled_revision with
  | none =>
      (.error (.attributeError
        ("NoneType object has no attribute approved_go_live_at")), st)
  | some scheduled_revision =>
      if st.obj.is_page then
        (.ok (some (.scheduledPage st.obj.admin_display_title
          scheduled_revision.approved_go_live_at.strftime)), st)
      else
        (.ok (some (.scheduledNonPage st.obj.verbose_name
          scheduled_revision.object_str
          scheduled_revision.approved_go_live_at.strftime)), st)

/-- Claim C1: for every settings value, object and user,
BasicLock.for_user returns false exactly when the global page edit lock
setting is disabled and the users pk equals the objects locked_by_id; in
every other case it returns true. -/
theorem C1_basicLock_for_user_false_iff (s : Settings) (obj : LockObj)
    (user : User) :
    BasicLock.for_user s obj user = false ↔
      (s.WAGTAILADMIN_GLOBAL_PAGE_EDIT_LOCK = false ∧
        user.pk = obj.locked_by_id) := by
  rcases s with ⟨g⟩
  cases g <;> simp [BasicLock.for_user]

/-- Claim C2: for every object and user, ScheduledForPublishLock.for_user
returns true regardless of the user and of the objects field values. -/
theorem C2_scheduledForPublishLock_for_user_true (obj : LockObj)
    (user : User) :
    ScheduledForPublishLock.for_user obj user = true := rfl

/-- Claim C3: for every object, task and user, WorkflowLock.for_user
returns exactly the value of the tasks own page_locked_for_user rule on
that object and user. -/
theorem C3_workflowLock_for_user_delegates (obj : LockObj) (task : Task)
    (user : User) :
    WorkflowLock.for_user obj task user =
      task.page_locked_for_user obj user := rfl

/-- Helper: BasicLock.get_message succeeds with a message on every input;
every branch of the source returns a formatted message. -/
lemma basicLock_get_message_isSome (obj : LockObj) (user : User) :
    ∃ m, BasicLock.get_message obj user = Except.ok (some m) := by
  unfold BasicLock.get_message
  rcases hby : obj.locked_by with _ | lb <;>
    rcases hat : obj.locked_at with _ | dt <;>
      by_cases h : obj.locked_by_id == user.pk <;>
        simp [h, hby, hat]

/-- Helper: WorkflowLock.get_message either returns none, returns a
message, or raises. -/
lemma workflowLock_get_message_shape (obj : LockObj) (task : Task)
    (user : User) :
    WorkflowLock.get_message obj task user = Except.ok none ∨
      (∃ m, WorkflowLock.get_message obj task user = Except.ok (some m)) ∨
      (∃ e, WorkflowLock.get_message obj task user = Except.error e) := by
  unfold WorkflowLock.get_message
  by_cases h : WorkflowLock.for_user obj task user <;>
    rcases hws : obj.current_workflow_state with _ | ws <;>
      simp [h, hws]
  by_cases hlen : ws.all_tasks_with_status.length = 1 <;> simp [hlen]

/-- Helper: ScheduledForPublishLock.get_message either returns a message
or raises. -/
lemma scheduledLock_get_message_shape (obj : LockObj) (user : User) :
    (∃ m, ScheduledForPublishLock.get_message obj user =
        Except.ok (some m)) ∨
      (∃ e, ScheduledForPublishLock.get_message obj user =
        Except.error e) := by
  unfold ScheduledForPublishLock.get_message
  rcases hsr : obj.scheduled_revision with _ | rev <;>
    by_cases hp : obj.is_page <;> simp [hsr, hp]

/-- Claim C4 counterexample: with the scheduled revision absent,
ScheduledForPublishLock.get_message raises an attribute error instead of
returning a fallback message, refuting the claim that get_message never
fails when an optional field is absent. -/
theorem C4_counterexample_scheduled_revision_absent :
    ScheduledForPublishLock.get_message
      { is_page := true, admin_display_title := "Home", verbose_name := "page",
        locked := true, locked_by_id := none, locked_by := none,
        locked_at := none, scheduled_revision := none,
        current_workflow_state := none }
      { pk := some 1, display := "Alice" } =
      Except.error (PyError.attributeError
        ("NoneType object has no attribute approved_go_live_at")) := rfl

/-- Claim C4 as amended: absent locked_by, locked_by_id or locked_at
degrade to fallback messages in BasicLock.get_message, which never fails;
WorkflowLock.get_message reads none of those fields and returns none
whenever the lock does not apply; but when the scheduled revision is
absent, ScheduledForPublishLock.get_message raises an attribute error
rather than returning a fallback message. -/
theorem C4_amended_get_message_on_absent_fields (obj : LockObj)
    (task : Task) (user : User) :
    (∃ m, BasicLock.get_message obj user = Except.ok (some m)) ∧
    (WorkflowLock.for_user obj task user = false →
      WorkflowLock.get_message obj task user = Except.ok none) ∧
    (obj.scheduled_revision = none →
      ScheduledForPublishLock.get_message obj user =
        Except.error (PyError.attributeError
          ("NoneType object has no attribute approved_go_live_at"))) := by
  refine ⟨basicLock_get_message_isSome obj user, ?_, ?_⟩
  · intro h
    simp [WorkflowLock.get_message, h]
  · intro h
    simp [ScheduledForPublishLock.get_message, h]

/-- Claim C4 witness: at a concrete object with every optional field
absent, BasicLock.get_message returns a message, WorkflowLock.get_message
returns none for a task that does not lock, and
ScheduledForPublishLock.get_message raises. -/
theorem C4_amended_witness :
    (∃ m, BasicLock.get_message
      { is_page := true, admin_display_title := "Home", verbose_name := "page",
        locked := true, locked_by_id := none, locked_by := none,
        locked_at := none, scheduled_revision := none,
        current_workflow_state := none }
      { pk := none, display := "Anon" } = Except.ok (some m)) ∧
    (WorkflowLock.get_message
      { is_page := true, admin_display_title := "Home", verbose_name := "page",
        locked := true, locked_by_id := none, locked_by := none,
        locked_at := none, scheduled_revision := none,
        current_workflow_state := none }
      { name := "Review", page_locked_for_user := fun _ _ => false }
      { pk := none, display := "Anon" } = Except.ok none) ∧
    (ScheduledForPublishLock.get_message
      { is_page := true, admin_display_title := "Home", verbose_name := "page",
        locked := true, locked_by_id := none, locked_by := none,
        locked_at := none, scheduled_revision := none,
        current_workflow_state := none }
      { pk := none, display := "Anon" } =
      Except.error (PyError.attributeError
        ("NoneType object has no attribute approved_go_live_at"))) :=
  ⟨(C4_amended_get_message_on_absent_fields _
      { name := "Review", page_locked_for_user := fun _ _ => false } _).1,
   (C4_amended_get_message_on_absent_fields _ _ _).2.1 rfl,
   (C4_amended_get_message_on_absent_fields _
      { name := "Review", page_locked_for_user := fun _ _ => false } _).2.2 rfl⟩

/-- Claim C5: no lock method mutates the visible state: for every call
state, each of the six state-passing method embeddings returns the state
unchanged, so the object, the task, the user and the settings are the same
after the call. -/
theorem C5_lock_methods_leave_state_unchanged (st : CallState) :
    (BasicLock.for_userSt st).2 = st ∧
    (BasicLock.get_messageSt st).2 = st ∧
    (WorkflowLock.for_userSt st).2 = st ∧
    (WorkflowLock.get_messageSt st).2 = st ∧
    (ScheduledForPublishLock.for_userSt st).2 = st ∧
    (ScheduledForPublishLock.get_messageSt st).2 = st := by
  refine ⟨?_, ?_, rfl, ?_, rfl, ?_⟩
  · unfold BasicLock.for_userSt
    split <;> rfl
  · unfold BasicLock.get_messageSt
    repeat' split
    all_goals rfl
  · unfold WorkflowLock.get_messageSt
    repeat' split
    all_goals rfl
  · unfold ScheduledForPublishLock.get_messageSt
    repeat' split
    all_goals rfl

/-- Claim C6: for each variant, for_user returns a boolean, and
get_message yields text or none whenever it returns: BasicLock always
returns a message, WorkflowLock returns none, a message, or raises, and
ScheduledForPublishLock returns a message or raises. -/
theorem C6_capability_result_kinds (s : Settings) (obj : LockObj)
    (task : Task) (user : User) :
    (BasicLock.for_user s obj user = true ∨
      BasicLock.for_user s obj user = false) ∧
    (WorkflowLock.for_user obj task user = true ∨
      WorkflowLock.for_user obj task user = false) ∧
    (ScheduledForPublishLock.for_user obj user = true ∨
      ScheduledForPublishLock.for_user obj user = false) ∧
    (∃ m, BasicLock.get_message obj user = Except.ok (some m)) ∧
    (WorkflowLock.get_message obj task user = Except.ok none ∨
      (∃ m, WorkflowLock.get_message obj task user = Except.ok (some m)) ∨
      (∃ e, WorkflowLock.get_message obj task user = Except.error e)) ∧
    ((∃ m, ScheduledForPublishLock.get_message obj user =
        Except.ok (some m)) ∨
      (∃ e, ScheduledForPublishLock.get_message obj user =
        Except.error e)) := by
  refine ⟨?_, ?_, Or.inl rfl, basicLock_get_message_isSome obj user,
    workflowLock_get_message_shape obj task user,
    scheduledLock_get_message_shape obj user⟩
  · cases BasicLock.for_user s obj user
    · exact Or.inr rfl
    · exact Or.inl rfl
  · cases WorkflowLock.for_user obj task user
    · exact Or.inr rfl
    · exact Or.inl rfl

/-- Claim C7: BasicLock.for_user is deterministic: two calls that agree on
the global lock setting, the objects locked_by_id and the users pk return
the same result, whatever the other fields are. -/
theorem C7_basicLock_for_user_deterministic (s1 s2 : Settings)
    (o1 o2 : LockObj) (u1 u2 : User)
    (hs : s1.WAGTAILADMIN_GLOBAL_PAGE_EDIT_LOCK =
      s2.WAGTAILADMIN_GLOBAL_PAGE_EDIT_LOCK)
    (ho : o1.locked_by_id = o2.locked_by_id) (hu : u1.pk = u2.pk) :
    BasicLock.for_user s1 o1 u1 = BasicLock.for_user s2 o2 u2 := by
  unfold BasicLock.for_user
  rw [hs, ho, hu]

/-- Claim C7 witness: two concrete calls agreeing only on the setting, the
locked_by_id and the pk give the same result. -/
theorem C7_basicLock_for_user_deterministic_witness :
    BasicLock.for_user { WAGTAILADMIN_GLOBAL_PAGE_EDIT_LOCK := false }
      { is_page := true, admin_display_title := "Home", verbose_name := "page",
        locked := true, locked_by_id := some 7, locked_by := none,
        locked_at := none, scheduled_revision := none,
        current_workflow_state := none }
      { pk := some 3, display := "Alice" } =
    BasicLock.for_user { WAGTAILADMIN_GLOBAL_PAGE_EDIT_LOCK := false }
      { is_page := false, admin_display_title := "About", verbose_name := "post",
        locked := false, locked_by_id := some 7,
        locked_by := some { pk := some 7, display := "Bob" },
        locked_at := some { strftime := "01 Jan 2024 00:00" },
        scheduled_revision := none, current_workflow_state := none }
      { pk := some 3, display := "Carol" } :=
  C7_basicLock_for_user_deterministic _ _ _ _ _ _ rfl rfl rfl

/-- Claim C8: with the global lock setting disabled, the objects
locked_by_id absent and the users pk absent, BasicLock.for_user returns
false, because none equals none under the pk comparison. -/
theorem C8_basicLock_for_user_none_pk (s : Settings) (obj : LockObj)
    (user : User) (hg : s.WAGTAILADMIN_GLOBAL_PAGE_EDIT_LOCK = false)
    (hl : obj.locked_by_id = none) (hp : user.pk = none) :
    BasicLock.for_user s obj user = false := by
  simp [BasicLock.for_user, hg, hl, hp]

/-- Claim C8 witness: a concrete anonymous user against a concrete object
whose locked_by_id is absent, with the global setting off. -/
theorem C8_basicLock_for_user_none_pk_witness :
    BasicLock.for_user { WAGTAILADMIN_GLOBAL_PAGE_EDIT_LOCK := false }
      { is_page := true, admin_display_title := "Home", verbose_name := "page",
        locked := true, locked_by_id := none, locked_by := none,
        locked_at := none, scheduled_revision := none,
        current_workflow_state := none }
      { pk := none, display := "Anon" } = false :=
  C8_basicLock_for_user_none_pk _ _ _ rfl rfl rfl

/-- Claim C9 counterexample: with the workflow state absent and a task
whose rule locks the page for the user, WorkflowLock.for_user is true yet
WorkflowLock.get_message raises instead of returning a message, refuting
the claim that get_message returns a non-none message whenever for_user is
true. -/
theorem C9_counterexample_state_absent :
    WorkflowLock.for_user
      { is_page := true, admin_display_title := "Home", verbose_name := "page",
        locked := false, locked_by_id := none, locked_by := none,
        locked_at := none, scheduled_revision := none,
        current_workflow_state := none }
      { name := "Review", page_locked_for_user := fun _ _ => true }
      { pk := some 1, display := "Alice" } = true ∧
    WorkflowLock.get_message
      { is_page := true, admin_display_title := "Home", verbose_name := "page",
        locked := false, locked_by_id := none, locked_by := none,
        locked_at := none, scheduled_revision := none,
        current_workflow_state := none }
      { name := "Review", page_locked_for_user := fun _ _ => true }
      { pk := some 1, display := "Alice" } =
      Except.error (PyError.attributeError
        ("NoneType object has no attribute all_tasks_with_status")) :=
  ⟨rfl, rfl⟩

/-- Claim C9 as amended: when the lock does not apply to the user,
WorkflowLock.get_message returns none; and provided the objects current
workflow state is present, get_message returns a non-none message exactly
when for_user is true.  When for_user is true but the workflow state is
absent, get_message raises instead. -/
theorem C9_amended_workflow_message_iff (obj : LockObj) (task : Task)
    (user : User) :
    (WorkflowLock.for_user obj task user = false →
      WorkflowLock.get_message obj task user = Except.ok none) ∧
    (obj.current_workflow_state.isSome = true →
      ((∃ m, WorkflowLock.get_message obj task user = Except.ok (some m)) ↔
        WorkflowLock.for_user obj task user = true)) := by
  constructor
  · intro h
    simp [WorkflowLock.get_message, h]
  · intro hws
    rcases hws2 : obj.current_workflow_state with _ | ws
    · rw [hws2] at hws
      simp at hws
    · by_cases h : WorkflowLock.for_user obj task user
      · simp only [WorkflowLock.get_message, h, if_true, hws2]
        by_cases hlen : ws.all_tasks_with_status.length = 1 <;>
          simp [hlen, h]
      · simp [WorkflowLock.get_message, h]

/-- Claim C9 witness: at concrete inputs, a task that does not lock gives
none, and with a workflow state present the message is non-none exactly
when the task locks. -/
theorem C9_amended_workflow_message_iff_witness :
    (WorkflowLock.get_message
      { is_page := true, admin_display_title := "Home", verbose_name := "page",
        locked := false, locked_by_id := none, locked_by := none,
        locked_at := none, scheduled_revision := none,
        current_workflow_state := none }
      { name := "Review", page_locked_for_user := fun _ _ => false }
      { pk := some 1, display := "Alice" } = Except.ok none) ∧
    ((∃ m, WorkflowLock.get_message
      { is_page := true, admin_display_title := "Home", verbose_name := "page",
        locked := false, locked_by_id := none, locked_by := none,
        locked_at := none, scheduled_revision := none,
        current_workflow_state := some
          { all_tasks_with_status := ["Review"],
            workflow := { name := "Moderation" } } }
      { name := "Review", page_locked_for_user := fun _ _ => true }
      { pk := some 1, display := "Alice" } = Except.ok (some m)) ↔
      WorkflowLock.for_user
      { is_page := true, admin_display_title := "Home", verbose_name := "page",
        locked := false, locked_by_id := none, locked_by := none,
        locked_at := none, scheduled_revision := none,
        current_workflow_state := some
          { all_tasks_with_status := ["Review"],
            workflow := { name := "Moderation" } } }
      { name := "Review", page_locked_for_user := fun _ _ => true }
      { pk := some 1, display := "Alice" } = true) :=
  ⟨(C9_amended_workflow_message_iff _ _ _).1 rfl,
   (C9_amended_workflow_message_iff _ _ _).2 rfl⟩

/-- Claim C10: with the global lock setting disabled, BasicLock.get_message
returns a message that uses the locked-by-you wording exactly for those
users for whom BasicLock.for_user returns false, because the message and
the decision compare the users pk with locked_by_id the same way. -/
theorem C10_basicLock_message_matches_decision (s : Settings)
    (obj : LockObj) (user : User)
    (hg : s.WAGTAILADMIN_GLOBAL_PAGE_EDIT_LOCK = false) :
    ∃ m, BasicLock.get_message obj user = Except.ok (some m) ∧
      (m.lockedByYouWording = true ↔
        BasicLock.for_user s obj user = false) := by
  by_cases h : obj.locked_by_id = user.pk
  · rcases hat : obj.locked_at with _ | dt
    · refine ⟨Msg.pageIsLockedByYou obj.admin_display_title, ?_, ?_⟩
      · simp [BasicLock.get_message, h, hat]
      · simp [Msg.lockedByYouWording, BasicLock.for_user, hg, h]
    · refine ⟨Msg.pageWasLockedByYou obj.admin_display_title dt.strftime,
        ?_, ?_⟩
      · simp [BasicLock.get_message, h, hat]
      · simp [Msg.lockedByYouWording, BasicLock.for_user, hg, h]
  · rcases hby : obj.locked_by with _ | lb <;>
      rcases hat : obj.locked_at with _ | dt
    · refine ⟨Msg.pageIsLocked obj.admin_display_title, ?_, ?_⟩
      · simp [BasicLock.get_message, h, hby, hat]
      · simp [Msg.lockedByYouWording, BasicLock.for_user, hg,
          bne_eq_false_iff_eq]
        exact fun hh => h hh.symm
    · refine ⟨Msg.pageIsLocked obj.admin_display_title, ?_, ?_⟩
      · simp [BasicLock.get_message, h, hby, hat]
      · simp [Msg.lockedByYouWording, BasicLock.for_user, hg,
          bne_eq_false_iff_eq]
        exact fun hh => h hh.symm
    · refine ⟨Msg.pageIsLocked obj.admin_display_title, ?_, ?_⟩
      · simp [BasicLock.get_message, h, hby, hat]
      · simp [Msg.lockedByYouWording, BasicLock.for_user, hg,
          bne_eq_false_iff_eq]
        exact fun hh => h hh.symm
    · refine ⟨Msg.pageWasLockedByUser obj.admin_display_title lb.display
        dt.strftime, ?_, ?_⟩
      · simp [BasicLock.get_message, h, hby, hat]
      · simp [Msg.lockedByYouWording, BasicLock.for_user, hg,
          bne_eq_false_iff_eq]
        exact fun hh => h hh.symm

/-- Claim C10 witness: at a concrete object locked by user 7 with the
global setting off, the message for user 7 uses the locked-by-you wording
and for_user is false there. -/
theorem C10_basicLock_message_matches_decision_witness :
    ∃ m, BasicLock.get_message
      { is_page := true, admin_display_title := "Home", verbose_name := "page",
        locked := true, locked_by_id := some 7, locked_by := none,
        locked_at := none, scheduled_revision := none,
        current_workflow_state := none }
      { pk := some 7, display := "Bob" } = Except.ok (some m) ∧
      (m.lockedByYouWording = true ↔
        BasicLock.for_user { WAGTAILADMIN_GLOBAL_PAGE_EDIT_LOCK := false }
          { is_page := true, admin_display_title := "Home",
            verbose_name := "page", locked := true, locked_by_id := some 7,
            locked_by := none, locked_at := none, scheduled_revision := none,
            current_workflow_state := none }
          { pk := some 7, display := "Bob" } = false) :=
  C10_basicLock_message_matches_decision _ _ _ rfl

end WagtailLocks
